import Mathlib

/-!
Verification development for the `ubjson` Go package (UBJSON Draft-12 codec).

This file shallowly embeds the parts of the source needed to settle the
frozen claims: the marker table and integer-width selector (`marker.go`),
the token readers (`reader.go`, binary and block forms), the reflective
decoder of `decode.go` (container preludes, array/object sub-decoders,
struct decoding), the reflective encoder of `encode.go` (smallest-int
marshaling, object/array container encoding, struct field keys,
`getMarshaler` dispatch), and the field-descriptor computation
(`typeFields`).

Bytes are modelled as `Nat` values `< 256`; byte streams as `List Nat`.
Fallible reads are state-passing: a read returns its result together with
the advanced source state, and on error the source stays at the point of
failure, as with the underlying buffered Go reader. A Go `panic` is
modelled as a distinct outcome so that it cannot be confused with a
returned error. Strings on the wire are ASCII in every input exercised
here, so Go's byte-length of a string coincides with `String.length`.
-/

namespace UbjsonSpec

/-- A `Marker` is a single byte UBJSON type byte (`marker.go`). -/
abbrev Marker := Nat

/-- `'Z'` -/
def NullMarker : Marker := 90
/-- `'N'` -/
def NoOpMarker : Marker := 78
/-- `'T'` -/
def TrueMarker : Marker := 84
/-- `'F'` -/
def FalseMarker : Marker := 70
/-- `'U'` -/
def UInt8Marker : Marker := 85
/-- `'i'` -/
def Int8Marker : Marker := 105
/-- `'I'` -/
def Int16Marker : Marker := 73
/-- `'l'` -/
def Int32Marker : Marker := 108
/-- `'L'` -/
def Int64Marker : Marker := 76
/-- `'d'` -/
def Float32Marker : Marker := 100
/-- `'D'` -/
def Float64Marker : Marker := 68
/-- `'H'` -/
def HighPrecNumMarker : Marker := 72
/-- `'C'` -/
def CharMarker : Marker := 67
/-- `'S'` -/
def StringMarker : Marker := 83
/-- `'['` -/
def ArrayStartMarker : Marker := 91
/-- `'{'` -/
def ObjectStartMarker : Marker := 123
/-- `']'` -/
def arrayEndMarker : Marker := 93
/-- `'}'` -/
def objectEndMarker : Marker := 125
/-- `'#'` -/
def countMarker : Marker := 35
/-- `'$'` -/
def typeMarker : Marker := 36

/-- `marker.go` `smallestIntMarker`: the marker for the smallest integer
type into which `v` fits. -/
def smallestIntMarker (v : Int) : Marker :=
  if 0 ≤ v ∧ v ≤ 255 then UInt8Marker
  else if v ≤ 127 ∧ -128 ≤ v then Int8Marker
  else if v ≤ 32767 ∧ -32768 ≤ v then Int16Marker
  else if v ≤ 2147483647 ∧ -2147483648 ≤ v then Int32Marker
  else Int64Marker

/-- `encode.go` `intMarshaler`: the marker of the marshaler selected for a
host `int` (the marshaler for each branch carries the corresponding fixed
marker: `uint8Marshaler ↦ 'U'`, `int8Marshaler ↦ 'i'`, ...). -/
def intMarshalerMarker (v : Int) : Marker :=
  if 0 ≤ v ∧ v ≤ 255 then UInt8Marker
  else if v ≤ 127 ∧ -128 ≤ v then Int8Marker
  else if v ≤ 32767 ∧ -32768 ≤ v then Int16Marker
  else if v ≤ 2147483647 ∧ -2147483648 ≤ v then Int32Marker
  else Int64Marker

/-- Result of a fallible read: the value (or error) plus the source state
after the call. -/
abbrev RdRes (σ α : Type) := Except String α × σ

/-- Payload of a float token. The binary form carries raw IEEE-754 bits,
the block form carries the decimal text of the block. The numeric
interpretation of either representation is not modelled; no claim settled
here depends on it. -/
inductive FloatRepr
  | bits32 (n : Nat)
  | bits64 (n : Nat)
  | decimal (s : String)
deriving DecidableEq, Repr

/-- The `reader` interface of `reader.go`, minus `readString` (which is
added by `RdrS` below because the generic `readInt` is needed first, as in
the source where `readString` calls the package-level `readInt`). -/
structure Rdr (σ : Type) where
  peekMarker : σ → RdRes σ Marker
  readMarker : σ → RdRes σ Marker
  readUInt8 : σ → RdRes σ Nat
  readInt8 : σ → RdRes σ Int
  readInt16 : σ → RdRes σ Int
  readInt32 : σ → RdRes σ Int
  readInt64 : σ → RdRes σ Int
  readFloat32 : σ → RdRes σ FloatRepr
  readFloat64 : σ → RdRes σ FloatRepr
  readChar : σ → RdRes σ Nat

/-- `reader.go` `readInt`: dynamically reads an integer of unspecified
size - a marker byte followed by the matching payload. -/
def readInt {σ : Type} (R : Rdr σ) (s : σ) : RdRes σ Int :=
  match R.readMarker s with
  | (.error e, s1) => (.error e, s1)
  | (.ok m, s1) =>
    if m = UInt8Marker then
      match R.readUInt8 s1 with
      | (.error e, s2) => (.error e, s2)
      | (.ok u, s2) => (.ok (u : Int), s2)
    else if m = Int8Marker then R.readInt8 s1
    else if m = Int16Marker then R.readInt16 s1
    else if m = Int32Marker then R.readInt32 s1
    else if m = Int64Marker then R.readInt64 s1
    else (.error "failed to read int: expected int marker", s1)

/-- `reader.go` `readContainer`: parses an optional container prelude and
returns the declared value-type marker and length, or `0` and `-1`
respectively when none are present. -/
def readContainer {σ : Type} (R : Rdr σ) (s : σ) : RdRes σ (Marker × Int) :=
  match R.peekMarker s with
  | (.error e, s0) => (.error e, s0)
  | (.ok m, s0) =>
    if m = typeMarker then
      match R.readMarker s0 with
      | (.error e, s1) => (.error e, s1)
      | (.ok _, s1) =>
        match R.readMarker s1 with
        | (.error e, s2) => (.error e, s2)
        | (.ok t, s2) =>
          match R.readMarker s2 with
          | (.error e, s3) => (.error e, s3)
          | (.ok c, s3) =>
            if c ≠ countMarker then
              (.error "count marker (#) required following container type marker", s3)
            else
              match readInt R s3 with
              | (.error e, s4) => (.error e, s4)
              | (.ok l, s4) =>
                if l < 0 then (.error "illegal negative container length", s4)
                else (.ok (t, l), s4)
    else if m = countMarker then
      match R.readMarker s0 with
      | (.error e, s1) => (.error e, s1)
      | (.ok _, s1) =>
        match readInt R s1 with
        | (.error e, s2) => (.error e, s2)
        | (.ok l, s2) =>
          if l < 0 then (.error "illegal negative container length", s2)
          else (.ok (0, l), s2)
    else (.ok (0, -1), s0)

/-! ### Binary reader (`binaryReader` in `reader.go`)

State is the remaining byte stream, a `List Nat` of values `< 256`. -/

/-- Two's-complement reinterpretation of a `w`-bit unsigned value. -/
def toSigned (w : Nat) (u : Nat) : Int :=
  if u ≥ 2 ^ (w - 1) then (u : Int) - 2 ^ w else u

/-- Big-endian value of a byte list. -/
def beNat : List Nat → Nat := List.foldl (fun a b => a * 256 + b) 0

def readMarkerBin (s : List Nat) : RdRes (List Nat) Marker :=
  match s with
  | [] => (.error "failed to read marker", s)
  | b :: r => (.ok b, r)

def peekMarkerBin (s : List Nat) : RdRes (List Nat) Marker :=
  match s with
  | [] => (.error "failed to peek marker", s)
  | b :: _ => (.ok b, s)

def readUInt8Bin (s : List Nat) : RdRes (List Nat) Nat :=
  match s with
  | [] => (.error "failed to read UInt8 byte", s)
  | b :: r => (.ok b, r)

def readInt8Bin (s : List Nat) : RdRes (List Nat) Int :=
  match s with
  | [] => (.error "failed to read Int8 byte", s)
  | b :: r => (.ok (toSigned 8 b), r)

/-- `binaryReader.readBuf`: read exactly `n` bytes. -/
def readBufBin (n : Nat) (s : List Nat) : RdRes (List Nat) (List Nat) :=
  if (s.take n).length = n then (.ok (s.take n), s.drop n)
  else (.error "failed to read enough bytes", s.drop n)

def readInt16Bin (s : List Nat) : RdRes (List Nat) Int :=
  match readBufBin 2 s with
  | (.error e, s1) => (.error e, s1)
  | (.ok b, s1) => (.ok (toSigned 16 (beNat b)), s1)

def readInt32Bin (s : List Nat) : RdRes (List Nat) Int :=
  match readBufBin 4 s with
  | (.error e, s1) => (.error e, s1)
  | (.ok b, s1) => (.ok (toSigned 32 (beNat b)), s1)

def readInt64Bin (s : List Nat) : RdRes (List Nat) Int :=
  match readBufBin 8 s with
  | (.error e, s1) => (.error e, s1)
  | (.ok b, s1) => (.ok (toSigned 64 (beNat b)), s1)

def readFloat32Bin (s : List Nat) : RdRes (List Nat) FloatRepr :=
  match readBufBin 4 s with
  | (.error e, s1) => (.error e, s1)
  | (.ok b, s1) => (.ok (.bits32 (beNat b)), s1)

def readFloat64Bin (s : List Nat) : RdRes (List Nat) FloatRepr :=
  match readBufBin 8 s with
  | (.error e, s1) => (.error e, s1)
  | (.ok b, s1) => (.ok (.bits64 (beNat b)), s1)

def readCharBin (s : List Nat) : RdRes (List Nat) Nat :=
  match s with
  | [] => (.error "failed to read marker", s)
  | b :: r =>
    if b > 127 then (.error "illegal Char value: must not exceed 127", r)
    else (.ok b, r)

/-- The binary `reader` of `reader.go` (sans `readString`). -/
def binRdr : Rdr (List Nat) :=
  { peekMarker := peekMarkerBin
    readMarker := readMarkerBin
    readUInt8 := readUInt8Bin
    readInt8 := readInt8Bin
    readInt16 := readInt16Bin
    readInt32 := readInt32Bin
    readInt64 := readInt64Bin
    readFloat32 := readFloat32Bin
    readFloat64 := readFloat64Bin
    readChar := readCharBin }

/-- `binaryReader.readString` with the caller-supplied allocation cap, as
in `src/reader.go`: an integer length prefix, negative-length and cap
checks, then exactly that many bytes. -/
def binaryReadString (max : Int) (s : List Nat) : RdRes (List Nat) String :=
  match readInt binRdr s with
  | (.error _, s1) => (.error "failed to read string length prefix", s1)
  | (.ok l, s1) =>
    if l < 0 then (.error "illegal string length prefix", s1)
    else if l > max then (.error "string length prefix exceeds max allocation limit", s1)
    else
      match l with
      | .ofNat n =>
        if (s1.take n).length = n then
          (.ok (String.mk ((s1.take n).map Char.ofNat)), s1.drop n)
        else (.error "failed to read full string length", s1.drop n)
      | .negSucc _ => (.error "illegal string length prefix", s1)

/-- The string read used by the decoder in `src/decode.go`, whose revision
of the reader interface exposes `readString()` with no cap argument: the
same parse as `binaryReadString` minus the cap comparison. -/
def readStringBin (s : List Nat) : RdRes (List Nat) String :=
  match readInt binRdr s with
  | (.error _, s1) => (.error "failed to read string length prefix", s1)
  | (.ok l, s1) =>
    match l with
    | .ofNat n =>
      if (s1.take n).length = n then
        (.ok (String.mk ((s1.take n).map Char.ofNat)), s1.drop n)
      else (.error "failed to read full string length", s1.drop n)
    | .negSucc _ => (.error "illegal string length prefix", s1)

/-! ### Block reader (`blockReader` in `reader.go`)

State is the cached look-ahead block (`next`, `""` meaning empty, as in
the Go struct) plus the remaining characters. -/

structure BlockSt where
  next : String
  rest : List Char
deriving DecidableEq, Repr

/-- `blockReader.readBlock`: `ReadBytes('[')` discards through the next
`'['` (failing at end of input), then `ReadString(']')` collects through
the closing `']'`; the text between the brackets is the block. -/
def readBlock (cs : List Char) : Except String (String × List Char) :=
  match cs.dropWhile (fun c => c ≠ '[') with
  | [] => .error "failed to read block start"
  | _ :: r1 =>
    match r1.dropWhile (fun c => c ≠ ']') with
    | [] => .error "failed to read through block end"
    | _ :: r2 => .ok (String.mk (r1.takeWhile (fun c => c ≠ ']')), r2)

/-- `blockReader.nextBlock`: returns the cached block if present,
otherwise reads a fresh one. -/
def nextBlock (st : BlockSt) : RdRes BlockSt String :=
  if st.next ≠ "" then (.ok st.next, { st with next := "" })
  else
    match readBlock st.rest with
    | .error e => (.error e, st)
    | .ok (s, r) => (.ok s, ⟨"", r⟩)

/-- `blockReader.peekBlock`: returns the next block and caches it; an
empty block is an error. -/
def peekBlock (st : BlockSt) : RdRes BlockSt String :=
  if st.next ≠ "" then (.ok st.next, st)
  else
    match readBlock st.rest with
    | .error e => (.error e, st)
    | .ok (n, r) =>
      if n = "" then (.error "empty block", ⟨"", r⟩)
      else (.ok n, ⟨n, r⟩)

def readMarkerBlock (st : BlockSt) : RdRes BlockSt Marker :=
  match nextBlock st with
  | (.error e, st1) => (.error e, st1)
  | (.ok s, st1) =>
    match s.data with
    | [c] => (.ok c.toNat, st1)
    | _ => (.error "expected single byte marker", st1)

def peekMarkerBlock (st : BlockSt) : RdRes BlockSt Marker :=
  match peekBlock st with
  | (.error e, st1) => (.error e, st1)
  | (.ok s, st1) =>
    match s.data with
    | [c] => (.ok c.toNat, st1)
    | _ => (.error "expected single byte marker", st1)

/-- Decimal value of a non-empty all-digit character list
(`strconv`'s base-10 digit scan). -/
def digitsVal : List Char → Option Nat
  | [] => none
  | ds =>
    if ds.all Char.isDigit then
      some (ds.foldl (fun a c => a * 10 + (c.toNat - 48)) 0)
    else none

/-- `strconv.ParseUint(s, 10, bits)`: digits only, bounded by `2^bits`. -/
def parseUint (s : String) (bits : Nat) : Except String Nat :=
  match digitsVal s.data with
  | none => .error "failed to parse uint: invalid syntax"
  | some n => if n < 2 ^ bits then .ok n else .error "failed to parse uint: value out of range"

/-- `strconv.ParseInt(s, 10, bits)`: optional sign, digits, bounded by the
signed `bits`-bit range. -/
def parseInt (s : String) (bits : Nat) : Except String Int :=
  match s.data with
  | '-' :: ds =>
    match digitsVal ds with
    | none => .error "failed to parse int: invalid syntax"
    | some n =>
      if n ≤ 2 ^ (bits - 1) then .ok (-(n : Int))
      else .error "failed to parse int: value out of range"
  | '+' :: ds =>
    match digitsVal ds with
    | none => .error "failed to parse int: invalid syntax"
    | some n =>
      if n < 2 ^ (bits - 1) then .ok (n : Int)
      else .error "failed to parse int: value out of range"
  | ds =>
    match digitsVal ds with
    | none => .error "failed to parse int: invalid syntax"
    | some n =>
      if n < 2 ^ (bits - 1) then .ok (n : Int)
      else .error "failed to parse int: value out of range"

def readUInt8Block (st : BlockSt) : RdRes BlockSt Nat :=
  match nextBlock st with
  | (.error e, st1) => (.error e, st1)
  | (.ok s, st1) =>
    match parseUint s 8 with
    | .error e => (.error e, st1)
    | .ok n => (.ok n, st1)

/-- `blockReader.readBlockedInt`. -/
def readBlockedInt (bits : Nat) (st : BlockSt) : RdRes BlockSt Int :=
  match nextBlock st with
  | (.error e, st1) => (.error e, st1)
  | (.ok s, st1) =>
    match parseInt s bits with
    | .error e => (.error e, st1)
    | .ok n => (.ok n, st1)

def readFloatBlock (st : BlockSt) : RdRes BlockSt FloatRepr :=
  match nextBlock st with
  | (.error e, st1) => (.error e, st1)
  | (.ok s, st1) => (.ok (.decimal s), st1)

def readCharBlock (st : BlockSt) : RdRes BlockSt Nat :=
  match nextBlock st with
  | (.error e, st1) => (.error e, st1)
  | (.ok s, st1) =>
    match s.data with
    | [c] =>
      if c.toNat > 127 then (.error "illegal Char value: must not exceed 127", st1)
      else (.ok c.toNat, st1)
    | _ => (.error "expected single byte Char", st1)

/-- The block `reader` of `reader.go` (sans `readString`). -/
def blockRdr : Rdr BlockSt :=
  { peekMarker := peekMarkerBlock
    readMarker := readMarkerBlock
    readUInt8 := readUInt8Block
    readInt8 := readBlockedInt 8
    readInt16 := readBlockedInt 16
    readInt32 := readBlockedInt 32
    readInt64 := readBlockedInt 64
    readFloat32 := readFloatBlock
    readFloat64 := readFloatBlock
    readChar := readCharBlock }

/-- `blockReader.readString`: an integer length prefix which must be at
least 1, then a block of exactly that many characters. (The cap argument
of `src/reader.go` is omitted as in `readStringBin`; the decoder revision
in `src/decode.go` supplies none.) -/
def readStringBlock (st : BlockSt) : RdRes BlockSt String :=
  match readInt blockRdr st with
  | (.error _, st1) => (.error "failed to read string length prefix", st1)
  | (.ok l, st1) =>
    if l < 1 then (.error "illegal string length prefix", st1)
    else
      match nextBlock st1 with
      | (.error _, st2) => (.error "failed to read string block", st2)
      | (.ok s, st2) =>
        if (s.length : Int) = l then (.ok s, st2)
        else (.error "string length does not match prefix", st2)

/-- A reader together with its `readString` operation. -/
structure RdrS (σ : Type) extends Rdr σ where
  readString : σ → RdRes σ String

def binRdrS : RdrS (List Nat) := { binRdr with readString := readStringBin }

def blockRdrS : RdrS BlockSt := { blockRdr with readString := readStringBlock }

/-! ### Decoded host values

The universe of values the reflective decoder can produce
(`decodeInterface` and the typed `Decode` paths of `decode.go`). -/

inductive UValue where
  | null
  | boolean (b : Bool)
  | uint8 (n : Nat)
  | int8 (i : Int)
  | int16 (i : Int)
  | int32 (i : Int)
  | int64 (i : Int)
  | goInt (i : Int)
  | float32 (f : FloatRepr)
  | float64 (f : FloatRepr)
  | char (n : Nat)
  | highPrec (s : String)
  | str (s : String)
  | arr (elems : List UValue)
  | obj (entries : List (String × UValue))

/-- The static Go types the decoder can be pointed at; mirrors the type
switch of `Decoder.Decode` and the result of `elementTypeFor`. -/
inductive ElemKind where
  | iface | str | boolean | goInt | u8 | i8 | i16 | i32 | i64 | f32 | f64 | char | highPrec
deriving DecidableEq, Repr

/-- `decode.go` `elementTypeFor`: the host type into which data with this
marker is decoded, falling back to `interface{}`. -/
def elementTypeFor (m : Marker) : ElemKind :=
  if m = TrueMarker ∨ m = FalseMarker then .boolean
  else if m = UInt8Marker then .u8
  else if m = Int8Marker then .i8
  else if m = Int16Marker then .i16
  else if m = Int32Marker then .i32
  else if m = Int64Marker then .i64
  else if m = Float32Marker then .f32
  else if m = Float64Marker then .f64
  else if m = StringMarker then .str
  else if m = CharMarker then .char
  else if m = HighPrecNumMarker then .highPrec
  else .iface

/-- Which `readValType` implementation a `Decoder` carries: the plain
top-level one (`readMarker`), an `ArrayDecoder`'s `readElemType`, or an
`ObjectDecoder`'s `readValType`. The container cases carry the declared
type marker (`0` for none) and length (`-1` for none); the running
`count` is threaded separately. -/
inductive Ctx where
  | top
  | arr (elemType : Marker) (len : Int)
  | obj (valType : Marker) (len : Int)

/-- The `readValType` dispatch: `Decoder.readMarker` at top level;
`ArrayDecoder.readElemType` and `ObjectDecoder.readValType` inside
containers, which pre-increment the count, enforce the declared-length
bound (and, for objects, key/value alternation), and synthesise the
declared marker instead of reading one when it is set. -/
def readValType {σ : Type} (R : Rdr σ) : Ctx → Nat → σ → Except String (Marker × Nat) × σ
  | .top, count, s =>
    match R.readMarker s with
    | (.error e, s1) => (.error e, s1)
    | (.ok m, s1) => (.ok (m, count), s1)
  | .arr et len, count, s =>
    let c := count + 1
    if len ≥ 0 ∧ (c : Int) > len then (.error "too many calls for container", s)
    else if et = 0 then
      match R.readMarker s with
      | (.error e, s1) => (.error e, s1)
      | (.ok m, s1) => (.ok (m, c), s1)
    else (.ok (et, c), s)
  | .obj vt len, count, s =>
    let c := count + 1
    if len ≥ 0 ∧ (c : Int) > 2 * len then (.error "too many calls for container", s)
    else if c % 2 ≠ 0 then (.error "unable to decode value: expected key", s)
    else if vt = 0 then
      match R.readMarker s with
      | (.error e, s1) => (.error e, s1)
      | (.ok m, s1) => (.ok (m, c), s1)
    else (.ok (vt, c), s)

/-- `ObjectDecoder.DecodeKey`: pre-increment the count, enforce the bound
and alternation, then read a bare (markerless) string. -/
def decodeKey {σ : Type} (R : RdrS σ) (len : Int) (count : Nat) (s : σ) :
    Except String (String × Nat) × σ :=
  let c := count + 1
  if len ≥ 0 ∧ (c : Int) > 2 * len then (.error "too many calls for container", s)
  else if c % 2 = 0 then (.error "unable to decode key: expected value", s)
  else
    match R.readString s with
    | (.error e, s1) => (.error e, s1)
    | (.ok k, s1) => (.ok (k, c), s1)

/-- `Decoder.decodeValue`: assert the next value-type marker, then run the
payload reader. -/
def decodeValue {σ α : Type} (R : Rdr σ) (ctx : Ctx) (count : Nat) (expected : Marker)
    (payload : σ → RdRes σ α) (s : σ) : Except String (α × Nat) × σ :=
  match readValType R ctx count s with
  | (.error e, s1) => (.error e, s1)
  | (.ok (r, c), s1) =>
    if r ≠ expected then (.error "tried to read wrong type", s1)
    else
      match payload s1 with
      | (.error e, s2) => (.error e, s2)
      | (.ok v, s2) => (.ok (v, c), s2)

/-- `Decoder.DecodeBool`. -/
def decodeBool {σ : Type} (R : Rdr σ) (ctx : Ctx) (count : Nat) (s : σ) :
    Except String (Bool × Nat) × σ :=
  match readValType R ctx count s with
  | (.error e, s1) => (.error e, s1)
  | (.ok (m, c), s1) =>
    if m = TrueMarker then (.ok (true, c), s1)
    else if m = FalseMarker then (.ok (false, c), s1)
    else (.error "expected true or false marker", s1)

/-- `Decoder.DecodeInt`: accept any of `U,i,I,l,L`, widening to the
host's `int`. -/
def decodeIntDyn {σ : Type} (R : Rdr σ) (ctx : Ctx) (count : Nat) (s : σ) :
    Except String (Int × Nat) × σ :=
  match readValType R ctx count s with
  | (.error e, s1) => (.error e, s1)
  | (.ok (m, c), s1) =>
    if m = UInt8Marker then
      match R.readUInt8 s1 with
      | (.error e, s2) => (.error e, s2)
      | (.ok u, s2) => (.ok ((u : Int), c), s2)
    else if m = Int8Marker then
      match R.readInt8 s1 with
      | (.error e, s2) => (.error e, s2)
      | (.ok i, s2) => (.ok (i, c), s2)
    else if m = Int16Marker then
      match R.readInt16 s1 with
      | (.error e, s2) => (.error e, s2)
      | (.ok i, s2) => (.ok (i, c), s2)
    else if m = Int32Marker then
      match R.readInt32 s1 with
      | (.error e, s2) => (.error e, s2)
      | (.ok i, s2) => (.ok (i, c), s2)
    else if m = Int64Marker then
      match R.readInt64 s1 with
      | (.error e, s2) => (.error e, s2)
      | (.ok i, s2) => (.ok (i, c), s2)
    else (.error "encountered non-int type marker", s1)

/-- Wrap a typed decode result into a `UValue`. -/
def mapVal {σ α : Type} (f : α → UValue) :
    Except String (α × Nat) × σ → Except String (UValue × Nat) × σ
  | (.error e, s) => (.error e, s)
  | (.ok (v, c), s) => (.ok (f v, c), s)

/-! ### Container decoding (`decode.go`)

The recursive decode routines, written against an abstract reader so the
binary and block instantiations share one embedding. Recursion is bounded
by an explicit fuel parameter; the loops of `arrayAsInterface`,
`objectAsInterface` and `objectIntoStruct` consume one unit per element
(so any concrete run needs fuel beyond its total element count). -/

/-- The pending work items of the recursive decode routines: a typed
element decode, an `interface{}` decode, the `arrayAsInterface` /
`objectAsInterface` / `objectIntoStruct` bodies, and their bounded and
unbounded entry loops. Factoring the mutual recursion through one job
type keeps the recursion structural on the fuel so runs reduce
definitionally. -/
inductive DecJob where
  | elem (k : ElemKind) (ctx : Ctx) (count : Nat)
  | iface (ctx : Ctx) (count : Nat)
  | arrBody (elemType : Marker) (len : Int)
  | arrLoopB (k : ElemKind) (elemType : Marker) (len : Int) (remaining : Nat)
      (count : Nat) (acc : List UValue)
  | arrLoopU (k : ElemKind) (elemType : Marker) (len : Int) (count : Nat)
      (acc : List UValue)
  | objBody (valType : Marker) (len : Int)
  | objLoopB (k : ElemKind) (valType : Marker) (len : Int) (remaining : Nat)
      (count : Nat) (acc : List (String × UValue))
  | objLoopU (k : ElemKind) (valType : Marker) (len : Int) (count : Nat)
      (acc : List (String × UValue))
  | structBody (fields : List (String × ElemKind))
  | structLoopB (fields : List (String × ElemKind)) (valType : Marker) (len : Int)
      (remaining : Nat) (count : Nat) (acc : List (String × UValue))
  | structLoopU (fields : List (String × ElemKind)) (valType : Marker) (len : Int)
      (count : Nat) (acc : List (String × UValue))

/-- The recursive decode routines of `decode.go`, one step per job.

* `elem` is the dispatch of `Decoder.Decode` on the destination's static
  type: `*interface{}` goes through `iface`; the typed pointers go
  through the corresponding `DecodeXxx` = `decodeValue` frames.
* `iface` is `Decoder.decodeInterface`: read (or synthesise) the next
  value-type marker and decode by it; `[` and `{` run `d.Array()` /
  `d.Object()` (the `readContainer` prelude) and then the container body.
* `arrBody`/`objBody` are `arrayAsInterface`/`objectAsInterface`: pick
  the element static type with `elementTypeFor`, then run the bounded
  loop (`for i := 0; i < Len; i++`, with `End`\'s length/count check) or
  the unbounded loop (`for NextElem()`, peeking for the end marker, with
  `End`\'s end-marker read; a peek failure is the deferred error `End`
  returns). Object loops alternate `DecodeKey` and a value decode and
  carry `End`\'s parity check.
* `structBody` is `objectIntoStruct` (after `d.Object()`): entries are
  looked up among the struct\'s fields **by name** (`FieldByName`); a key
  matching no field is an error; a matching field is decoded by its
  static type. The result collects the field assignments as an `obj`.

Containers produce their value with a count of `0` (the caller\'s count
was already advanced when its own value-type marker was consumed). -/
def decodeRun {σ : Type} (R : RdrS σ) : Nat → DecJob → σ → Except String (UValue × Nat) × σ
  | 0, _, s => (.error "model: out of fuel", s)
  | f + 1, .elem k ctx count, s =>
    match k with
    | .iface => decodeRun R f (.iface ctx count) s
    | .str => mapVal .str (decodeValue R.toRdr ctx count StringMarker R.readString s)
    | .boolean => mapVal .boolean (decodeBool R.toRdr ctx count s)
    | .goInt => mapVal .goInt (decodeIntDyn R.toRdr ctx count s)
    | .u8 => mapVal .uint8 (decodeValue R.toRdr ctx count UInt8Marker R.toRdr.readUInt8 s)
    | .i8 => mapVal .int8 (decodeValue R.toRdr ctx count Int8Marker R.toRdr.readInt8 s)
    | .i16 => mapVal .int16 (decodeValue R.toRdr ctx count Int16Marker R.toRdr.readInt16 s)
    | .i32 => mapVal .int32 (decodeValue R.toRdr ctx count Int32Marker R.toRdr.readInt32 s)
    | .i64 => mapVal .int64 (decodeValue R.toRdr ctx count Int64Marker R.toRdr.readInt64 s)
    | .f32 => mapVal .float32 (decodeValue R.toRdr ctx count Float32Marker R.toRdr.readFloat32 s)
    | .f64 => mapVal .float64 (decodeValue R.toRdr ctx count Float64Marker R.toRdr.readFloat64 s)
    | .char => mapVal .char (decodeValue R.toRdr ctx count CharMarker R.toRdr.readChar s)
    | .highPrec => mapVal .highPrec (decodeValue R.toRdr ctx count HighPrecNumMarker R.readString s)
  | f + 1, .iface ctx count, s =>
    match readValType R.toRdr ctx count s with
    | (.error e, s1) => (.error e, s1)
    | (.ok (m, c), s1) =>
      if m = NullMarker ∨ m = NoOpMarker then (.ok (.null, c), s1)
      else if m = TrueMarker then (.ok (.boolean true, c), s1)
      else if m = FalseMarker then (.ok (.boolean false, c), s1)
      else if m = UInt8Marker then
        match R.toRdr.readUInt8 s1 with
        | (.error e, s2) => (.error e, s2)
        | (.ok u, s2) => (.ok (.uint8 u, c), s2)
      else if m = Int8Marker then
        match R.toRdr.readInt8 s1 with
        | (.error e, s2) => (.error e, s2)
        | (.ok i, s2) => (.ok (.int8 i, c), s2)
      else if m = Int16Marker then
        match R.toRdr.readInt16 s1 with
        | (.error e, s2) => (.error e, s2)
        | (.ok i, s2) => (.ok (.int16 i, c), s2)
      else if m = Int32Marker then
        match R.toRdr.readInt32 s1 with
        | (.error e, s2) => (.error e, s2)
        | (.ok i, s2) => (.ok (.int32 i, c), s2)
      else if m = Int64Marker then
        match R.toRdr.readInt64 s1 with
        | (.error e, s2) => (.error e, s2)
        | (.ok i, s2) => (.ok (.int64 i, c), s2)
      else if m = Float32Marker then
        match R.toRdr.readFloat32 s1 with
        | (.error e, s2) => (.error e, s2)
        | (.ok v, s2) => (.ok (.float32 v, c), s2)
      else if m = Float64Marker then
        match R.toRdr.readFloat64 s1 with
        | (.error e, s2) => (.error e, s2)
        | (.ok v, s2) => (.ok (.float64 v, c), s2)
      else if m = StringMarker then
        match R.readString s1 with
        | (.error e, s2) => (.error e, s2)
        | (.ok v, s2) => (.ok (.str v, c), s2)
      else if m = HighPrecNumMarker then
        match R.readString s1 with
        | (.error e, s2) => (.error e, s2)
        | (.ok v, s2) => (.ok (.highPrec v, c), s2)
      else if m = CharMarker then
        match R.toRdr.readChar s1 with
        | (.error e, s2) => (.error e, s2)
        | (.ok v, s2) => (.ok (.char v, c), s2)
      else if m = ArrayStartMarker then
        match readContainer R.toRdr s1 with
        | (.error e, s2) => (.error e, s2)
        | (.ok (et, l), s2) =>
          match decodeRun R f (.arrBody et l) s2 with
          | (.error e, s3) => (.error e, s3)
          | (.ok (v, _), s3) => (.ok (v, c), s3)
      else if m = ObjectStartMarker then
        match readContainer R.toRdr s1 with
        | (.error e, s2) => (.error e, s2)
        | (.ok (vt, l), s2) =>
          match decodeRun R f (.objBody vt l) s2 with
          | (.error e, s3) => (.error e, s3)
          | (.ok (v, _), s3) => (.ok (v, c), s3)
      else (.error "failed to decode: unrecognized type marker", s1)
  | f + 1, .arrBody et l, s =>
    if l < 0 then decodeRun R f (.arrLoopU (elementTypeFor et) et l 0 []) s
    else decodeRun R f (.arrLoopB (elementTypeFor et) et l l.toNat 0 []) s
  | f + 1, .arrLoopB k et len remaining count acc, s =>
    (match remaining with
    | 0 =>
      if len = (count : Int) then (.ok (.arr acc.reverse, 0), s)
      else (.error "len count mismatch", s)
    | r + 1 =>
      match decodeRun R f (.elem k (.arr et len) count) s with
      | (.error e, s1) => (.error e, s1)
      | (.ok (v, c1), s1) => decodeRun R f (.arrLoopB k et len r c1 (v :: acc)) s1)
  | f + 1, .arrLoopU k et len count acc, s =>
    (match R.peekMarker s with
    | (.error e, s1) => (.error e, s1)
    | (.ok m, s1) =>
      if m = arrayEndMarker then
        match R.readMarker s1 with
        | (.error e, s2) => (.error e, s2)
        | (.ok mm, s2) =>
          if mm = arrayEndMarker then (.ok (.arr acc.reverse, 0), s2)
          else (.error "expected end marker", s2)
      else
        match decodeRun R f (.elem k (.arr et len) count) s1 with
        | (.error e, s2) => (.error e, s2)
        | (.ok (v, c1), s2) => decodeRun R f (.arrLoopU k et len c1 (v :: acc)) s2)
  | f + 1, .objBody vt l, s =>
    if l < 0 then decodeRun R f (.objLoopU (elementTypeFor vt) vt l 0 []) s
    else decodeRun R f (.objLoopB (elementTypeFor vt) vt l l.toNat 0 []) s
  | f + 1, .objLoopB k vt len remaining count acc, s =>
    (match remaining with
    | 0 =>
      if count % 2 = 1 then (.error "cannot end an object with a key", s)
      else if 2 * len = (count : Int) then (.ok (.obj acc.reverse, 0), s)
      else (.error "len count mismatch", s)
    | r + 1 =>
      match decodeKey R len count s with
      | (.error e, s1) => (.error e, s1)
      | (.ok (key, c1), s1) =>
        match decodeRun R f (.elem k (.obj vt len) c1) s1 with
        | (.error e, s2) => (.error e, s2)
        | (.ok (v, c2), s2) => decodeRun R f (.objLoopB k vt len r c2 ((key, v) :: acc)) s2)
  | f + 1, .objLoopU k vt len count acc, s =>
    (match R.peekMarker s with
    | (.error e, s1) => (.error e, s1)
    | (.ok m, s1) =>
      if m = objectEndMarker then
        if count % 2 = 1 then (.error "cannot end an object with a key", s1)
        else
          match R.readMarker s1 with
          | (.error e, s2) => (.error e, s2)
          | (.ok mm, s2) =>
            if mm = objectEndMarker then (.ok (.obj acc.reverse, 0), s2)
            else (.error "expected end marker", s2)
      else
        match decodeKey R len count s1 with
        | (.error e, s2) => (.error e, s2)
        | (.ok (key, c1), s2) =>
          match decodeRun R f (.elem k (.obj vt len) c1) s2 with
          | (.error e, s3) => (.error e, s3)
          | (.ok (v, c2), s3) => decodeRun R f (.objLoopU k vt len c2 ((key, v) :: acc)) s3)
  | f + 1, .structBody fields, s =>
    (match readContainer R.toRdr s with
    | (.error e, s1) => (.error e, s1)
    | (.ok (vt, l), s1) =>
      if l < 0 then decodeRun R f (.structLoopU fields vt l 0 []) s1
      else decodeRun R f (.structLoopB fields vt l l.toNat 0 []) s1)
  | f + 1, .structLoopB fields vt len remaining count acc, s =>
    (match remaining with
    | 0 =>
      if count % 2 = 1 then (.error "cannot end an object with a key", s)
      else if 2 * len = (count : Int) then (.ok (.obj acc.reverse, 0), s)
      else (.error "len count mismatch", s)
    | r + 1 =>
      match decodeKey R len count s with
      | (.error e, s1) => (.error e, s1)
      | (.ok (key, c1), s1) =>
        match fields.lookup key with
        | none => (.error ("unable to decode entry: no field named " ++ key ++ " found"), s1)
        | some kind =>
          match decodeRun R f (.elem kind (.obj vt len) c1) s1 with
          | (.error e, s2) => (.error e, s2)
          | (.ok (v, c2), s2) =>
            decodeRun R f (.structLoopB fields vt len r c2 ((key, v) :: acc)) s2)
  | f + 1, .structLoopU fields vt len count acc, s =>
    (match R.peekMarker s with
    | (.error e, s1) => (.error e, s1)
    | (.ok m, s1) =>
      if m = objectEndMarker then
        if count % 2 = 1 then (.error "cannot end an object with a key", s1)
        else
          match R.readMarker s1 with
          | (.error e, s2) => (.error e, s2)
          | (.ok mm, s2) =>
            if mm = objectEndMarker then (.ok (.obj acc.reverse, 0), s2)
            else (.error "expected end marker", s2)
      else
        match decodeKey R len count s1 with
        | (.error e, s2) => (.error e, s2)
        | (.ok (key, c1), s2) =>
          match fields.lookup key with
          | none => (.error ("unable to decode entry: no field named " ++ key ++ " found"), s2)
          | some kind =>
            match decodeRun R f (.elem kind (.obj vt len) c1) s2 with
            | (.error e, s3) => (.error e, s3)
            | (.ok (v, c2), s3) =>
              decodeRun R f (.structLoopU fields vt len c2 ((key, v) :: acc)) s3)

/-- The dispatch of `Decoder.Decode` on a typed destination. -/
def decodeElem {σ : Type} (R : RdrS σ) (fuel : Nat) (k : ElemKind) (ctx : Ctx)
    (count : Nat) (s : σ) : Except String (UValue × Nat) × σ :=
  decodeRun R fuel (.elem k ctx count) s

/-- `Decoder.decodeInterface`. -/
def decodeInterface {σ : Type} (R : RdrS σ) (fuel : Nat) (ctx : Ctx) (count : Nat)
    (s : σ) : Except String (UValue × Nat) × σ :=
  decodeRun R fuel (.iface ctx count) s

/-- `decode.go` `objectIntoStruct` (body after `d.Object()`). -/
def objectIntoStructBody {σ : Type} (R : RdrS σ) (fuel : Nat)
    (fields : List (String × ElemKind)) (s : σ) : Except String (UValue × Nat) × σ :=
  decodeRun R fuel (.structBody fields) s

/-- The destination argument of `Decoder.Decode`, classified the way the
function's own checks classify it: the untyped `nil`, a pointer to
`interface{}`, a pointer to a scalar of one of the switch's types, a
pointer to a struct (characterised by its field names and field static
types), or any non-pointer value. (`Value` implementers take the
`DecodeValue` path and are not modelled; every implementer in the
repository uses a pointer receiver.) -/
inductive Dst where
  | dnil
  | diface
  | dptr (k : ElemKind)
  | dptrStruct (fields : List (String × ElemKind))
  | dnonPtr

/-- Outcome of a top-level `Decode` call: a decoded value, a returned
error, or a crash by `panic`. The source state after the call is carried
so that byte consumption is observable. -/
inductive DecodeOutcome (σ : Type) where
  | ok (v : UValue) (rest : σ)
  | err (msg : String) (rest : σ)
  | panicked (rest : σ)

/-- `decode.go` `Decoder.Decode`: reject `nil`; dispatch the typed
pointer cases; reject non-pointers before any read; decode structs via
`decodeValue(ObjectStartMarker, objectIntoStruct(...))`. -/
def DecoderDecode {σ : Type} (R : RdrS σ) (fuel : Nat) (dst : Dst) (s : σ) :
    DecodeOutcome σ :=
  match dst with
  | .dnil => .err "cannot decode into nil value" s
  | .diface =>
    match decodeInterface R fuel .top 0 s with
    | (.error e, s1) => .err e s1
    | (.ok (v, _), s1) => .ok v s1
  | .dptr k =>
    match decodeElem R fuel k .top 0 s with
    | (.error e, s1) => .err e s1
    | (.ok (v, _), s1) => .ok v s1
  | .dptrStruct fields =>
    match readValType R.toRdr .top 0 s with
    | (.error e, s1) => .err e s1
    | (.ok (m, _), s1) =>
      if m ≠ ObjectStartMarker then .err "tried to read wrong type" s1
      else
        match objectIntoStructBody R fuel fields s1 with
        | (.error e, s2) => .err e s2
        | (.ok (v, _), s2) => .ok v s2
  | .dnonPtr => .err "can only decode into pointers" s

/-- Characters of a string as byte values (all inputs here are ASCII). -/
def strBytes (s : String) : List Nat := s.data.map Char.toNat

/-! ### Encoder (`encode.go`, binary form)

The reflective encoder of `src/encode.go`. Output is the byte list
written to the sink; `block` is false, so `newLine` is a no-op and
`writeType` emits the bare marker byte. A Go `panic` (the final branch of
`getMarshaler`) is a distinct outcome. -/

/-- Low `w*8` bits of a value, big-endian, `w` bytes. -/
def beBytes (w : Nat) (n : Nat) : List Nat :=
  (List.range w).reverse.map (fun k => n / 256 ^ k % 256)

/-- The `w`-bit two's-complement payload bytes of a signed value
(`binary.BigEndian.PutUintN(uintN(v))`). -/
def twosBytes (bits : Nat) (i : Int) : List Nat :=
  beBytes (bits / 8) ((i % (2 ^ bits : Nat)).toNat)

/-- `Encoder.EncodeInt`'s data bytes: the payload of the smallest-format
marshaler selected by `intMarshaler`. -/
def intDataBytes (v : Int) : List Nat :=
  if 0 ≤ v ∧ v ≤ 255 then [v.toNat]
  else if v ≤ 127 ∧ -128 ≤ v then twosBytes 8 v
  else if v ≤ 32767 ∧ -32768 ≤ v then twosBytes 16 v
  else if v ≤ 2147483647 ∧ -2147483648 ≤ v then twosBytes 32 v
  else twosBytes 64 v

/-- `Encoder.EncodeInt`: marker plus payload of the smallest format. -/
def encodeIntBytes (v : Int) : List Nat :=
  intMarshalerMarker v :: intDataBytes v

/-- `stringMarshaler`'s data encoder: `EncodeInt(len(s))` then the raw
bytes (object keys use exactly this, with no leading `S`). -/
def stringDataBytes (s : String) : List Nat :=
  encodeIntBytes s.length ++ strBytes s

/-- `strings.Split(s, ",")` on the character list: the comma-separated
pieces (never empty). -/
def splitCommaAux : List Char → List Char → List (List Char)
  | [], acc => [acc.reverse]
  | c :: rest, acc =>
    if c = ',' then acc.reverse :: splitCommaAux rest []
    else splitCommaAux rest (c :: acc)

/-- `strings.Split(s, ",")`. -/
def stringsSplitComma (s : String) : List String :=
  (splitCommaAux s.data []).map String.mk

/-- `encode.go` `StructMarshaler`: the wire key of a struct field - the
first comma-piece of the `json` tag when one is present
(`strings.Split(jsonTag, ",")[0]`), else the field name. -/
def structFieldKey (name : String) (tags : List (String × String)) : String :=
  let jsonTag := (tags.lookup "json").getD ""
  if jsonTag ≠ "" then (stringsSplitComma jsonTag).headD "" else name

/-- Host values routed by `encode.go` `getMarshaler`. Struct fields carry
their name, their tag key/value pairs, and their value; `chanVal` and
`funcVal` stand for values of the kinds its switch does not cover. -/
inductive EncVal where
  | vnil
  | vstr (s : String)
  | vbool (b : Bool)
  | vint (i : Int)
  | vint8 (i : Int)
  | vuint8 (n : Nat)
  | vint16 (i : Int)
  | vint32 (i : Int)
  | vint64 (i : Int)
  | vfloat32 (bits : Nat)
  | vfloat64 (bits : Nat)
  | vchar (n : Nat)
  | vhigh (s : String)
  | vbytes (bs : List Nat)
  | vstruct (fields : List (String × List (String × String) × EncVal))
  | chanVal
  | funcVal

/-- Outcome of `Encoder.Encode`/`Marshal`: the bytes written, or a crash
by `panic` (`getMarshaler`'s final branch). `outOfFuel` is a model
artifact of the explicit recursion bound; it is unreachable for any value
whose struct nesting stays below the fuel. -/
inductive EncOutcome where
  | out (bytes : List Nat)
  | panicked
  | outOfFuel

/-- `ArrayMarshaler` on a `[]byte` value: `[` then
`EncodeArray(uint8, len, ...)`, which writes `$`, `getType(uint8) = 'U'`,
`#`, the count via `EncodeInt`, and each element's payload with its
marker elided. -/
def encodeByteSlice (bs : List Nat) : List Nat :=
  ArrayStartMarker :: typeMarker :: UInt8Marker :: countMarker ::
    encodeIntBytes bs.length ++ bs

/-- Pending encoder work: a single value through `Encode`, or the entry
loop of a struct's `EncodeObject`. One job type keeps the recursion
structural on a fuel bound so runs reduce definitionally; `EncJob.one` of
a value of nesting depth below the fuel never exhausts it. -/
inductive EncJob where
  | one (v : EncVal)
  | structEntries (fields : List (String × List (String × String) × EncVal))

/-- `Encoder.Encode` = `marshal(getMarshaler(v))`: dispatch on the host
value, write the marker byte, then the data; `getMarshaler` panics on a
value of a kind its switch does not cover (`EncOutcome.panicked`).

A struct (`StructMarshaler`) writes `{`, then
`EncodeObject(nil, count, entries)`: a `#` count prelude (`count` is the
number of exported fields, hence `≥ 0`), then for each field the bare key
(chosen by `structFieldKey`) and the field value through `Encode` (marker
included, since no value type was declared), and - `count` being
non-negative - no closing `}`. -/
def encodeRun : Nat → EncJob → EncOutcome
  | 0, _ => .outOfFuel
  | _ + 1, .one .vnil => .out [NullMarker]
  | _ + 1, .one (.vstr s) => .out (StringMarker :: stringDataBytes s)
  | _ + 1, .one (.vbool true) => .out [TrueMarker]
  | _ + 1, .one (.vbool false) => .out [FalseMarker]
  | _ + 1, .one (.vint i) => .out (encodeIntBytes i)
  | _ + 1, .one (.vint8 i) => .out (Int8Marker :: twosBytes 8 i)
  | _ + 1, .one (.vuint8 n) => .out [UInt8Marker, n]
  | _ + 1, .one (.vint16 i) => .out (Int16Marker :: twosBytes 16 i)
  | _ + 1, .one (.vint32 i) => .out (Int32Marker :: twosBytes 32 i)
  | _ + 1, .one (.vint64 i) => .out (Int64Marker :: twosBytes 64 i)
  | _ + 1, .one (.vfloat32 bits) => .out (Float32Marker :: beBytes 4 bits)
  | _ + 1, .one (.vfloat64 bits) => .out (Float64Marker :: beBytes 8 bits)
  | _ + 1, .one (.vchar n) => .out [CharMarker, n]
  | _ + 1, .one (.vhigh s) => .out (HighPrecNumMarker :: stringDataBytes s)
  | _ + 1, .one (.vbytes bs) => .out (encodeByteSlice bs)
  | f + 1, .one (.vstruct fields) =>
    (match encodeRun f (.structEntries fields) with
    | .panicked => .panicked
    | .outOfFuel => .outOfFuel
    | .out entryBytes =>
      .out (ObjectStartMarker :: countMarker ::
        encodeIntBytes fields.length ++ entryBytes))
  | _ + 1, .one .chanVal => .panicked
  | _ + 1, .one .funcVal => .panicked
  | _ + 1, .structEntries [] => .out []
  | f + 1, .structEntries (fld :: rest) =>
    (match encodeRun f (.one fld.2.2) with
    | .panicked => .panicked
    | .outOfFuel => .outOfFuel
    | .out vb =>
      match encodeRun f (.structEntries rest) with
      | .panicked => .panicked
      | .outOfFuel => .outOfFuel
      | .out rb => .out (stringDataBytes (structFieldKey fld.1 fld.2.1) ++ vb ++ rb))

/-- `ubjson.go` `Marshal`: `NewEncoder(&buf).Encode(v)` and return the
buffer. The fuel bound `1000` covers any value nested less than a
thousand structs deep, in particular every value considered here. -/
def Marshal (v : EncVal) : EncOutcome := encodeRun 1000 (.one v)

/-! ### Field descriptors (`typeFields`, struct-tag cache file) -/

/-- The `fields` descriptor computed by `typeFields`. -/
structure GoFields where
  names : List String
  indexByName : List (String × Nat)
deriving DecidableEq, Repr

/-- `typeFields`: index exported fields by the `ubjson` struct tag when
present (`Tag.Lookup("ubjson")`), otherwise by the field name. The
argument lists each exported field's name and tag pairs. -/
def typeFields (fs : List (String × List (String × String))) : GoFields :=
  (fs.enum).foldl
    (fun acc p =>
      let name :=
        match p.2.2.lookup "ubjson" with
        | some v => v
        | none => p.2.1
      { names := acc.names ++ [name], indexByName := acc.indexByName ++ [(name, p.1)] })
    ⟨[], []⟩

/-! ### Block-form float formatting (`writer` file, `blockWriter`) -/

/-- The argument triple of a `strconv.FormatFloat` call: format verb,
precision, and `bitSize`. -/
structure FormatFloatArgs where
  fmt : Nat
  prec : Int
  bitSize : Nat
deriving DecidableEq, Repr

/-- `blockWriter.writeFloat64` formats its `float64` argument with
`strconv.FormatFloat(float64(v), 'g', -1, 32)`. -/
def blockWriteFloat64Args : FormatFloatArgs := ⟨103, -1, 32⟩

/-- `blockWriter.writeFloat32` formats its `float32` argument with
`strconv.FormatFloat(float64(v), 'g', -1, 32)`. -/
def blockWriteFloat32Args : FormatFloatArgs := ⟨103, -1, 32⟩

/-! ### Concrete scenario inputs -/

/-- Binary `{ U 1 A i 08 U 1 b i 05 }`: an object with entry `A = 8` and
an entry `b = 5` unknown to the destination struct. -/
def unknownFieldInput : List Nat :=
  [0x7B, 0x55, 0x01, 0x41, 0x69, 0x08, 0x55, 0x01, 0x62, 0x69, 0x05, 0x7D]

/-- Binary `{ U 1 A i 08 }`: the same object without the unknown entry. -/
def knownFieldInput : List Nat :=
  [0x7B, 0x55, 0x01, 0x41, 0x69, 0x08, 0x7D]

/-- The destination struct `{ A int8 }` of the discard-unknown-fields
scenario. -/
def structA : List (String × ElemKind) := [("A", .i8)]

/-- Block `"[[][$][N][#][I][512]"`: a typed array declaring the singleton
`NoOp` element type together with a count. -/
def noOpTypedArrayInput : BlockSt := ⟨"", "[[][$][N][#][I][512]".data⟩

/-- Block `"[[][$][U][#][U][2][76][127]"`: the input of the repository's
`MaxCollectionAlloc` test, which sets the cap to 1. -/
def capTestInput : BlockSt := ⟨"", "[[][$][U][#][U][2][76][127]".data⟩

/-- The struct value `object{Str: "str", Int: int64(45678),
Bytes: []byte("test")}` of the object-encoding scenario (fields untagged,
in declaration order). -/
def objectVal : EncVal := .vstruct
  [ ("Str", ([], .vstr "str"))
  , ("Int", ([], .vint64 45678))
  , ("Bytes", ([], .vbytes (strBytes "test"))) ]

/-- The bytes `Marshal objectVal` actually writes: `{`, then a `# U 3`
count prelude, then the three entries, and no closing `}`. -/
def objectValBytes : List Nat :=
  [123, 35, 85, 3,
   85, 3, 83, 116, 114, 83, 85, 3, 115, 116, 114,
   85, 3, 73, 110, 116, 76, 0, 0, 0, 0, 0, 0, 178, 110,
   85, 5, 66, 121, 116, 101, 115, 91, 36, 85, 35, 85, 4, 116, 101, 115, 116]

/-- The `TaggedStruct` value of the repository's tag example:
`Field1 string` tagged `ubjson:"field1"`, and `FieldA int` tagged both
`json:"ignored"` and `ubjson:"fieldA"`. -/
def taggedVal : EncVal := .vstruct
  [ ("Field1", ([("ubjson", "field1")], .vstr "test"))
  , ("FieldA", ([("json", "ignored"), ("ubjson", "fieldA")], .vint 42)) ]

/-- The exported-field descriptor input for `TaggedStruct`. -/
def taggedFields : List (String × List (String × String)) :=
  [("Field1", [("ubjson", "field1")]),
   ("FieldA", [("json", "ignored"), ("ubjson", "fieldA")])]

/-- The bytes `Marshal taggedVal` actually writes: keys `Field1` and
`ignored` (the `json` tag), not the `ubjson` tag names. -/
def taggedValBytes : List Nat :=
  [123, 35, 85, 2,
   85, 6, 70, 105, 101, 108, 100, 49, 83, 85, 4, 116, 101, 115, 116,
   85, 7, 105, 103, 110, 111, 114, 101, 100, 85, 42]

/-! ## Theorems settling the claims -/

/-- C1. The claim states decoding binary
`7B 55 01 41 69 08 55 01 62 69 05 7D` into a struct `{A int8}` silently
discards the unknown entry `b` and succeeds with `A = 8`. The code does
not: `objectIntoStruct` looks the key up with `FieldByName` and returns
an error for a key matching no field, so that decode fails (first
conjunct), while the same input without the `b` entry decodes to `A = 8`
(second conjunct, showing the failure is exactly the unknown key). -/
theorem decode_unknown_struct_field_errors :
    DecoderDecode binRdrS 100 (.dptrStruct structA) unknownFieldInput =
      .err "unable to decode entry: no field named b found" [0x69, 0x05, 0x7D] ∧
    DecoderDecode binRdrS 100 (.dptrStruct structA) knownFieldInput =
      .ok (.obj [("A", .int8 8)]) [] := by
  exact ⟨rfl, rfl⟩

set_option maxRecDepth 100000 in
/-- C2. The claim states a typed container declaring a singleton element
type (`N`, `Z`, `T`, `F`) with a count must fail to decode; the code
instead decodes block `"[[][$][N][#][I][512]"` successfully into a slice
of 512 nulls (`readElemType` synthesises `N` for every element and
`decodeInterface` maps it to nil). -/
theorem decode_singleton_typed_array_succeeds :
    DecoderDecode blockRdrS 1000 .diface noOpTypedArrayInput =
      .ok (.arr (List.replicate 512 .null)) ⟨"", []⟩ := by
  rfl

/-- C8. The claim states any declared string or container length beyond
the decoder's `max_collection_alloc` fails with an illegal-length error.
The decoder in `src/decode.go` has no such cap: block
`"[[][$][U][#][U][2][76][127]"` (the repository's cap test expects this
to fail under `MaxCollectionAlloc = 1`) decodes successfully regardless,
there being no cap to set (first conjunct). Only the reader-side
`readString` of `src/reader.go` implements the cap check, and the
decoder never supplies it (second and third conjuncts: `U 2 'a' 'b'`
read under caps 1 and 2). -/
theorem decode_alloc_cap_not_enforced :
    DecoderDecode blockRdrS 1000 .diface capTestInput =
      .ok (.arr [.uint8 76, .uint8 127]) ⟨"", []⟩ ∧
    binaryReadString 1 [85, 2, 97, 98] =
      (.error "string length prefix exceeds max allocation limit", [97, 98]) ∧
    binaryReadString 2 [85, 2, 97, 98] = (.ok "ab", []) := by
  exact ⟨rfl, rfl, rfl⟩

/-- C3. `EncodeInt` (via `intMarshaler`) and `smallestIntMarker` pick the
narrowest integer marker by the claimed rule: `0 ≤ v ≤ 255 ↦ U`, else
`-128 ≤ v ≤ 127 ↦ i`, else `I`, else `l`, else `L`; ties in `0..127`
resolve to `U`; every `v ∈ [-2³¹, 2³¹)` gets a marker no wider than `l`,
and every `v ∈ [-2⁷, 2⁸)` gets `U` or `i` only. -/
theorem encodeInt_smallest_marker (v : Int) :
    intMarshalerMarker v = smallestIntMarker v ∧
    (0 ≤ v ∧ v ≤ 255 → smallestIntMarker v = UInt8Marker) ∧
    (¬(0 ≤ v ∧ v ≤ 255) → -128 ≤ v ∧ v ≤ 127 → smallestIntMarker v = Int8Marker) ∧
    (¬(0 ≤ v ∧ v ≤ 255) → ¬(-128 ≤ v ∧ v ≤ 127) → -32768 ≤ v ∧ v ≤ 32767 →
      smallestIntMarker v = Int16Marker) ∧
    (¬(0 ≤ v ∧ v ≤ 255) → ¬(-128 ≤ v ∧ v ≤ 127) → ¬(-32768 ≤ v ∧ v ≤ 32767) →
      -2147483648 ≤ v ∧ v ≤ 2147483647 → smallestIntMarker v = Int32Marker) ∧
    (¬(-2147483648 ≤ v ∧ v ≤ 2147483647) → smallestIntMarker v = Int64Marker) ∧
    (0 ≤ v → v ≤ 127 → smallestIntMarker v = UInt8Marker) ∧
    (-2147483648 ≤ v → v < 2147483648 →
      smallestIntMarker v = UInt8Marker ∨ smallestIntMarker v = Int8Marker ∨
      smallestIntMarker v = Int16Marker ∨ smallestIntMarker v = Int32Marker) ∧
    (-128 ≤ v → v < 256 →
      smallestIntMarker v = UInt8Marker ∨ smallestIntMarker v = Int8Marker) := by
  unfold smallestIntMarker intMarshalerMarker
  refine ⟨rfl, ?_, ?_, ?_, ?_, ?_, ?_, ?_, ?_⟩ <;> intros <;> split_ifs <;>
    first
      | rfl
      | omega
      | exact Or.inl rfl
      | exact Or.inr rfl
      | exact Or.inr (Or.inl rfl)
      | exact Or.inr (Or.inr (Or.inl rfl))
      | exact Or.inr (Or.inr (Or.inr rfl))

/-- Witness for `encodeInt_smallest_marker` at the tie value `100` and at
`-42`. -/
theorem encodeInt_smallest_marker_witness :
    smallestIntMarker 100 = UInt8Marker ∧ smallestIntMarker (-42) = Int8Marker :=
  ⟨(encodeInt_smallest_marker 100).2.1 (by decide),
   (encodeInt_smallest_marker (-42)).2.2.1 (by decide) (by decide)⟩

/-- C4. The container prelude parse of `readContainer` (binary reader):
after a peeked `$` the reader consumes it and the declared type marker
and fails unless the next marker is `#` (first conjunct); with `#` and a
successfully parsed length, a negative length fails and a non-negative
one publishes `(type, len)` (second and third conjuncts); a bare `#`
publishes `(no type, len)` with the same negativity check (fourth and
fifth conjuncts); any other peeked marker publishes `(no type, -1)`
without consuming anything (sixth conjunct). -/
theorem readContainer_prelude_spec :
    (∀ t c r, c ≠ countMarker →
      readContainer binRdr (typeMarker :: t :: c :: r) =
        (.error "count marker (#) required following container type marker", r)) ∧
    (∀ t r l r2, readInt binRdr r = (.ok l, r2) → 0 ≤ l →
      readContainer binRdr (typeMarker :: t :: countMarker :: r) = (.ok (t, l), r2)) ∧
    (∀ t r l r2, readInt binRdr r = (.ok l, r2) → l < 0 →
      readContainer binRdr (typeMarker :: t :: countMarker :: r) =
        (.error "illegal negative container length", r2)) ∧
    (∀ r l r2, readInt binRdr r = (.ok l, r2) → 0 ≤ l →
      readContainer binRdr (countMarker :: r) = (.ok (0, l), r2)) ∧
    (∀ r l r2, readInt binRdr r = (.ok l, r2) → l < 0 →
      readContainer binRdr (countMarker :: r) =
        (.error "illegal negative container length", r2)) ∧
    (∀ m r, m ≠ typeMarker → m ≠ countMarker →
      readContainer binRdr (m :: r) = (.ok (0, -1), m :: r)) := by
  refine ⟨?_, ?_, ?_, ?_, ?_, ?_⟩
  · intro t c r hc
    simp [readContainer, binRdr, peekMarkerBin, readMarkerBin, hc]
  · intro t r l r2 h hl
    simp only [binRdr] at h
    simp [readContainer, binRdr, peekMarkerBin, readMarkerBin, h,
      show ¬l < 0 by omega]
  · intro t r l r2 h hl
    simp only [binRdr] at h
    simp [readContainer, binRdr, peekMarkerBin, readMarkerBin, h, hl]
  · intro r l r2 h hl
    simp only [binRdr] at h
    simp [readContainer, binRdr, peekMarkerBin, readMarkerBin, h,
      show ¬l < 0 by omega, countMarker, typeMarker]
  · intro r l r2 h hl
    simp only [binRdr] at h
    simp [readContainer, binRdr, peekMarkerBin, readMarkerBin, h, hl,
      countMarker, typeMarker]
  · intro m r hm hc
    simp [readContainer, binRdr, peekMarkerBin, readMarkerBin, hm, hc]

/-- Witness for `readContainer_prelude_spec`: `$ U # U 3` publishes
`(U, 3)`; a peeked `i` publishes `(none, -1)` without consumption. -/
theorem readContainer_prelude_spec_witness :
    readContainer binRdr [typeMarker, UInt8Marker, countMarker, UInt8Marker, 3] =
      (.ok (UInt8Marker, 3), []) ∧
    readContainer binRdr [Int8Marker, 7] = (.ok (0, -1), [Int8Marker, 7]) :=
  ⟨readContainer_prelude_spec.2.1 UInt8Marker [UInt8Marker, 3] 3 [] rfl (by decide),
   readContainer_prelude_spec.2.2.2.2.2 Int8Marker [7] (by decide) (by decide)⟩

/-- C5. The claim states the block form writes a float64 as `[D]`
followed by the value printed at full 64-bit precision (so that
`UnmarshalBlock ∘ MarshalBlock` is the identity on float64). The code
calls `strconv.FormatFloat(v, 'g', -1, 32)`: `bitSize` 32, not 64, so the
value is rounded to float32 before printing and the round-trip loses
precision for any float64 not exactly representable in 32 bits. -/
theorem writeFloat64_block_bitsize :
    blockWriteFloat64Args.bitSize = 32 ∧ blockWriteFloat64Args.bitSize ≠ 64 := by
  decide

/-- C6. The claim states a struct encodes as an unbounded object: `{`
with no `$`/`#` prelude, bare keys, and a closing `}`. The code instead
counts the exported fields and opens a counted object: for the scenario
value `object{Str: "str", Int: int64(45678), Bytes: []byte("test")}` the
output has `#` at index 1 (followed by the `U 3` count) and no trailing
`}` (it ends with the last data byte `t` = 116). -/
theorem struct_encode_counted_without_end :
    Marshal objectVal = .out objectValBytes ∧
    objectValBytes.head? = some ObjectStartMarker ∧
    objectValBytes[1]? = some countMarker ∧
    objectValBytes.getLast? = some 116 ∧
    objectValBytes.getLast? ≠ some objectEndMarker := by
  refine ⟨rfl, rfl, rfl, rfl, by decide⟩

/-- C7. The claim states the `ubjson:"<name>"` tag sets the wire key and
a `json` tag alone never does. In `src/encode.go`, `StructMarshaler`
reads only the `json` tag: on the repository's `TaggedStruct` example it
writes the keys `Field1` and `ignored` (the `json` tag value), not the
`ubjson` names (first and second conjuncts), while the field descriptor
`typeFields` - unused by this encoder - indexes by the `ubjson` names
`field1`/`fieldA` (third conjunct), which differ (fourth conjunct). -/
theorem struct_encode_uses_json_tag :
    Marshal taggedVal = .out taggedValBytes ∧
    structFieldKey "FieldA" [("json", "ignored"), ("ubjson", "fieldA")] = "ignored" ∧
    (typeFields taggedFields).names = ["field1", "fieldA"] ∧
    structFieldKey "FieldA" [("json", "ignored"), ("ubjson", "fieldA")] ≠ "fieldA" := by
  refine ⟨rfl, rfl, rfl, by decide⟩

/-- C9. The claim states `Encode`/`Marshal` return an "unable to encode"
error on a host value outside the supported universe and never panic.
`getMarshaler` has no error return at all: its final statement is a
`panic`, reached for example by a channel or function value. -/
theorem marshal_unsupported_panics :
    Marshal .chanVal = .panicked ∧ Marshal .funcVal = .panicked ∧
    ∀ bs, Marshal .chanVal ≠ .out bs := by
  refine ⟨rfl, rfl, ?_⟩
  intro bs h
  simp [Marshal, encodeRun] at h

/-- C10. `Decoder.Decode` on a `nil` destination or a non-pointer
destination returns an error (the `err` outcome, not `panicked`) and
leaves the source untouched: both checks fire before any reader
operation, for every reader, fuel and source state. -/
theorem decode_nil_or_nonptr_errors {σ : Type} (R : RdrS σ) (fuel : Nat) (s : σ) :
    DecoderDecode R fuel .dnil s = .err "cannot decode into nil value" s ∧
    DecoderDecode R fuel .dnonPtr s = .err "can only decode into pointers" s :=
  ⟨rfl, rfl⟩

end UbjsonSpec
